import Mathlib

/-!
Verification of the user-account authentication core of this repository
(`app/models/user.py`, `app/schemas/user.py`, `app/auth/dependencies.py`)
against its natural-language specification.

The Python code is shallowly embedded: pure functions become Lean functions,
the SQLAlchemy session becomes an explicit `List User` directory threaded
through the operations, exceptions become `Except` / sentinel values, and
wall-clock time is an explicit `Nat` (seconds) parameter.  Third-party layers
that are not part of the repository (passlib's bcrypt context, python-jose's
JWT encode/decode, the stdlib `uuid` module, pydantic validation) are modelled
as executable Lean functions; each such model carries a doc comment saying
what it stands for.
-/

namespace AuthCore

/-! ## Character helpers -/

/-- ASCII decimal digit (`0`-`9`), by code point. -/
def isDigitChar (c : Char) : Bool :=
  48 ≤ c.toNat && c.toNat ≤ 57

/-- Lower-case hexadecimal digit (`0`-`9`, `a`-`f`), by code point. -/
def isLowerHexChar (c : Char) : Bool :=
  (48 ≤ c.toNat && c.toNat ≤ 57) || (97 ≤ c.toNat && c.toNat ≤ 102)

/-- Upper-case hexadecimal letter (`A`-`F`), by code point. -/
def isUpperHexChar (c : Char) : Bool :=
  65 ≤ c.toNat && c.toNat ≤ 70

/-- Hexadecimal digit of either case, as accepted by Python `int(s, 16)`. -/
def isHexDigitChar (c : Char) : Bool :=
  isLowerHexChar c || isUpperHexChar c

/-- Lower-cases an upper-case hex letter, the net normalization performed by
`uuid.UUID` storing the parsed integer and `str(uuid)` printing lower-case. -/
def hexToLower (c : Char) : Char :=
  if 65 ≤ c.toNat ∧ c.toNat ≤ 70 then Char.ofNat (c.toNat + 32) else c

/-! ## List helpers (models of Python string primitives) -/

/-- Worker for `listReplace`, structurally recursive on a fuel bound.  Each
step consumes at least one character, so fuel `hay.length` is always
enough; the `0` arm is unreachable for a non-empty list. -/
def listReplaceAux (needle : List Char) : Nat → List Char → List Char
  | _, [] => []
  | 0, hay => hay
  | fuel + 1, c :: rest =>
    if 0 < needle.length ∧ needle.isPrefixOf (c :: rest) = true then
      listReplaceAux needle fuel ((c :: rest).drop needle.length)
    else
      c :: listReplaceAux needle fuel rest

/-- Model of Python `str.replace(needle, "")`: delete every non-overlapping
occurrence of `needle`, scanning left to right. -/
def listReplace (needle : List Char) (hay : List Char) : List Char :=
  listReplaceAux needle hay.length hay

/-- `{` or `}`. -/
def isBraceChar (c : Char) : Bool :=
  c == '\x7b' || c == '\x7d'

/-- Model of Python `str.strip(chars)` for the brace character class:
drop leading and trailing braces. -/
def stripBraces (l : List Char) : List Char :=
  ((l.dropWhile isBraceChar).reverse.dropWhile isBraceChar).reverse

/-- Substring containment on character lists. -/
def listIsInfixOf (needle : List Char) : List Char → Bool
  | [] => needle.isEmpty
  | c :: rest => needle.isPrefixOf (c :: rest) || listIsInfixOf needle rest

/-- Model of Python `needle in hay` on strings: substring containment. -/
def strContains (hay needle : String) : Bool :=
  listIsInfixOf needle.toList hay.toList

/-- Model of Python `str.startswith`. -/
def strStartsWith (s pre : String) : Bool :=
  pre.toList.isPrefixOf s.toList

/-! ## Credential Hasher

Modelled from the spec: the repository delegates hashing to passlib's
`CryptContext(schemes=["bcrypt"])` (`pwd_context` in `app/models/user.py`),
whose code is not part of the repository.  Per spec section 4.1 the hasher is a
randomly-salted one-way transform whose `verify` recomputes and compares,
returning `false` (never an error) on any mismatch, malformed hash, or empty
input.  The salt is made an explicit `Nat` parameter; the idealized hash
string keeps bcrypt's recognizable `$2b$` prefix, which the `User`
constructor in the source sniffs for. -/

/-- Model of `pwd_context.hash` (bcrypt): `$2b$12$<salt>$<payload>`. -/
def hash_password (salt : Nat) (password : String) : String :=
  ⟨"$2b$12$".toList ++ (toString salt).toList ++ '$' :: password.toList⟩

/-- Parser for the modelled bcrypt format: returns the salt digits and the
payload, or `none` when the string is not a well-formed hash. -/
def bcryptParse (h : String) : Option (String × String) :=
  if "$2b$12$".toList.isPrefixOf h.toList then
    let rest := h.toList.drop 7
    let saltDigits := rest.takeWhile isDigitChar
    match rest.drop saltDigits.length with
    | '$' :: payload =>
      if 0 < saltDigits.length then some (⟨saltDigits⟩, ⟨payload⟩) else none
    | _ => none
  else none

/-- Model of `pwd_context.verify` per the spec contract: false on empty
input, on a malformed stored hash, and on any mismatch; true only when the
stored hash is well-formed and was produced from the given plaintext. -/
def pwd_verify (plain_password stored_hash : String) : Bool :=
  if plain_password = "" ∨ stored_hash = "" then false
  else
    match bcryptParse stored_hash with
    | some (_, payload) => payload == plain_password
    | none => false

/-! ## UUIDs

Modelled from the spec / Python stdlib usage: `uuid.UUID(s)` strips `urn:`
and `uuid:` markers, strips surrounding braces, deletes hyphens, and requires
exactly 32 hex digits; `str(u)` prints the 8-4-4-4-12 lower-case hyphenated
form.  A `UUID` value is its 32 lower-case hex digits. -/

structure UUID where
  hex : List Char
  deriving DecidableEq

/-- A `uuid.UUID` object always holds exactly 32 lower-case hex digits. -/
def UUID.valid (u : UUID) : Bool :=
  u.hex.length == 32 && u.hex.all isLowerHexChar

/-- The hyphenated 8-4-4-4-12 layout of `str(uuid)`. -/
def uuidFormat (hx : List Char) : List Char :=
  hx.take 8 ++ '-' :: ((hx.drop 8).take 4 ++ '-' :: ((hx.drop 12).take 4 ++
    '-' :: ((hx.drop 16).take 4 ++ '-' :: hx.drop 20)))

/-- Model of `str(uuid)`. -/
def UUID.toString (u : UUID) : String :=
  ⟨uuidFormat u.hex⟩

/-- Final step of the `uuid.UUID` constructor: 32 hex digits (either case)
make a UUID, anything else is a `ValueError`. -/
def uuidFromHexChars (hx : List Char) : Option UUID :=
  if hx.length == 32 && hx.all isHexDigitChar then
    some ⟨hx.map hexToLower⟩
  else
    none

/-- Model of the `uuid.UUID(s)` constructor, `none` for `ValueError`:
strip `urn:` / `uuid:` markers and braces, delete hyphens, read the hex. -/
def UUID.parse (s : String) : Option UUID :=
  uuidFromHexChars
    ((stripBraces (listReplace "uuid:".toList
        (listReplace "urn:".toList s.toList))).filter (fun c => c != '-'))

/-! ## Token Service

Modelled from the spec: the repository signs and verifies JWTs through
python-jose (`jwt.encode` / `jwt.decode`), whose code is not part of the
repository.  Per spec section 4.2 / 6 a token is a compact signed structure
carrying `sub` and `exp`, verified against a shared secret with an
HMAC-class algorithm; verification fails as a value on signature mismatch,
malformed structure, or expiry.  The MAC is an executable keyed fold; a
non-decodable wire blob is the `garbage` constructor.  Time is `Nat`
seconds; python-jose treats a token as expired exactly when `exp < now`
(zero leeway). -/

/-- Configuration from `app/models/user.py`: the `os.getenv` default. -/
def SECRET_KEY : String := "dev-secret-key"

/-- Configuration from `app/models/user.py`. -/
def ALGORITHM : String := "HS256"

/-- Configuration from `app/models/user.py`. -/
def ACCESS_TOKEN_EXPIRE_MINUTES : Nat := 30

/-- The claims set of a token: the `sub` and `exp` fields. -/
structure JWTClaims where
  sub : Option String
  exp : Nat
  deriving DecidableEq

/-- A JWT as seen by `jwt.decode`: either a structurally well-formed token
(claims plus signature) or an undecodable blob. -/
inductive JWT where
  | token (claims : JWTClaims) (sig : Nat)
  | garbage (raw : String)
  deriving DecidableEq

/-- Deterministic serialization of the claims set, the data that is MACed. -/
def claimsEncode (c : JWTClaims) : List Char :=
  (match c.sub with
   | none => "sub=absent"
   | some s => "sub=" ++ s).toList ++ ("|exp=" ++ toString c.exp).toList

/-- Model of the HMAC-SHA-256-class keyed MAC: an executable keyed fold
producing a 64-bit value. -/
def macSign (secret : String) (payload : List Char) : Nat :=
  (secret.toList ++ payload).foldl
    (fun a c => (a * 131 + c.toNat) % 18446744073709551616) 7

/-- Model of `jwt.encode(claims, secret, algorithm)`. -/
def jwt_encode (claims : JWTClaims) (secret : String) : JWT :=
  .token claims (macSign secret (claimsEncode claims))

/-- Model of `jwt.decode(token, secret, algorithms)` at time `now`:
`none` stands for a raised `JWTError` (bad structure, bad signature,
expired token). -/
def jwt_decode (tok : JWT) (secret : String) (now : Nat) : Option JWTClaims :=
  match tok with
  | .garbage _ => none
  | .token claims sig =>
    if sig = macSign secret (claimsEncode claims) then
      if claims.exp < now then none else some claims
    else none

/-- `str(identifier)` for the `Union[str, uuid.UUID]` subject argument. -/
def subjectToSub : UUID ⊕ String → String
  | .inl u => u.toString
  | .inr s => s

/-- `User.create_access_token_for_username` (`app/models/user.py` 86-92):
the subject may be a UUID or a plain string; `str(identifier)` becomes the
`sub` claim and `exp` is `now` plus the delta (default 30 minutes). -/
def create_access_token_for_username (now : Nat) (identifier : UUID ⊕ String)
    (expires_delta : Option Nat) : JWT :=
  jwt_encode
    { sub := some (subjectToSub identifier)
      exp := now + expires_delta.getD (ACCESS_TOKEN_EXPIRE_MINUTES * 60) }
    SECRET_KEY

/-- `User.verify_token` (`app/models/user.py` 102-118): decode, reject a
missing or empty `sub` (`if not sub`), then reinterpret the subject as a
UUID when it parses as one, else return the raw string; any `JWTError`
becomes `none`. -/
def verify_token (now : Nat) (token : JWT) : Option (UUID ⊕ String) :=
  match jwt_decode token SECRET_KEY now with
  | none => none
  | some payload =>
    match payload.sub with
    | none => none
    | some s =>
      if s = "" then none
      else
        match UUID.parse s with
        | some u => some (.inl u)
        | none => some (.inr s)

/-! ## The `User` model (`app/models/user.py` 28-81)

A SQLAlchemy row; in the embedding every column is an `Option` because the
constructor leaves unprovided columns unset (`None`) until the database
applies defaults. -/

structure User where
  id : Option UUID
  username : Option String
  email : Option String
  first_name : Option String
  last_name : Option String
  password_hash : Option String
  is_active : Option Bool
  is_verified : Option Bool
  last_login : Option Nat
  created_at : Option Nat
  updated_at : Option Nat
  deriving DecidableEq

/-- The keyword arguments a caller may pass to `User(**kwargs)`; a field is
`none` when the keyword is absent. -/
structure UserKwargs where
  id : Option UUID := none
  username : Option String := none
  email : Option String := none
  first_name : Option String := none
  last_name : Option String := none
  password : Option String := none
  password_hash : Option String := none
  is_active : Option Bool := none
  is_verified : Option Bool := none
  last_login : Option Nat := none
  created_at : Option Nat := none
  updated_at : Option Nat := none
  deriving DecidableEq

/-- `User.__init__` (`app/models/user.py` 45-55): pops `password`, pops and
discards `password_hash`, forwards the remaining kwargs to the column
constructor, then either stores a bcrypt-looking `password` directly or
hashes it via the write-only `password` setter (line 72-74).  `salt` is the
random salt bcrypt would draw. -/
def User.init (salt : Nat) (kw : UserKwargs) : User :=
  let base : User :=
    { id := kw.id
      username := kw.username
      email := kw.email
      first_name := kw.first_name
      last_name := kw.last_name
      password_hash := none
      is_active := kw.is_active
      is_verified := kw.is_verified
      last_login := kw.last_login
      created_at := kw.created_at
      updated_at := kw.updated_at }
  match kw.password with
  | none => base
  | some p =>
    if strStartsWith p "$2b$" || strStartsWith p "$2a$" then
      { base with password_hash := some p }
    else
      { base with password_hash := some (hash_password salt p) }

/-- `User.verify_password` (`app/models/user.py` 80-81).  A row whose
`password_hash` column is NULL never verifies (the hasher model rejects the
empty stored hash). -/
def User.verify_password (u : User) (plain_password : String) : Bool :=
  pwd_verify plain_password (u.password_hash.getD "")

/-! ## Pydantic schemas (`app/schemas/user.py`)

`UserCreate` declares exactly three fields — `username : str`,
`email : EmailStr`, `password : str` — with the default `extra="ignore"`
behaviour.  Validation errors are modelled as the per-field message list
pydantic renders, joined into one string, because `User.register` inspects
`str(e)` for the substring `"password"`. -/

/-- Modelled from the spec: pydantic `EmailStr` well-formedness ("email
shape"): one `@`, a non-empty local part, and a dot-separated domain with
non-empty labels. -/
def isValidEmail (s : String) : Bool :=
  match s.toList.splitOn '@' with
  | [localPart, domain] =>
    (!localPart.isEmpty) &&
      (domain.splitOn '.').length ≥ 2 &&
      (domain.splitOn '.').all (fun lbl => !lbl.isEmpty)
  | _ => false

/-- The raw registration payload (`user_data: Dict[str, Any]`): a field is
`none` when the key is absent from the dict. -/
structure RegisterInput where
  username : Option String := none
  email : Option String := none
  password : Option String := none
  first_name : Option String := none
  last_name : Option String := none
  deriving DecidableEq

/-- A validated `UserCreate` instance. -/
structure UserCreate where
  username : String
  email : String
  password : String
  deriving DecidableEq

/-- The field errors pydantic would report for `UserCreate`. -/
def userCreateErrors (input : RegisterInput) : List String :=
  (if input.username.isNone then ["username: Field required"] else []) ++
  (match input.email with
   | none => ["email: Field required"]
   | some e =>
     if isValidEmail e then []
     else ["email: value is not a valid email address"]) ++
  (if input.password.isNone then ["password: Field required"] else [])

/-- Model of `UserCreate.model_validate(user_data)`: `error` carries
`str(e)` of the raised `ValidationError`.  Keys outside the schema
(`first_name`, `last_name`) are ignored. -/
def UserCreate.model_validate (input : RegisterInput) :
    Except String UserCreate :=
  match input.username, input.email, input.password with
  | some un, some em, some pw =>
    if isValidEmail em then
      .ok { username := un, email := em, password := pw }
    else
      .error (String.intercalate "; " (userCreateErrors input))
  | _, _, _ => .error (String.intercalate "; " (userCreateErrors input))

/-- A validated `UserResponse` (`app/schemas/user.py` 30-47): `id`,
`username`, `email`, `created_at` are required, the rest optional. -/
structure UserResponse where
  id : UUID
  username : String
  email : String
  first_name : Option String
  last_name : Option String
  is_active : Option Bool
  is_verified : Option Bool
  created_at : Nat
  updated_at : Option Nat
  deriving DecidableEq

/-- Model of `UserResponse.model_validate(user)` reading a `User` row via
`from_attributes`; `error` stands for a raised `ValidationError` when a
required column is NULL or the email re-validation fails. -/
def UserResponse.model_validate (u : User) : Except String UserResponse :=
  match u.id, u.username, u.email, u.created_at with
  | some i, some un, some em, some ca =>
    if isValidEmail em then
      .ok { id := i
            username := un
            email := em
            first_name := u.first_name
            last_name := u.last_name
            is_active := u.is_active
            is_verified := u.is_verified
            created_at := ca
            updated_at := u.updated_at }
    else .error "email: value is not a valid email address"
  | _, _, _, _ => .error "validation error for UserResponse"

/-! ## `User.register` (`app/models/user.py` 123-153) -/

/-- How a `register` call terminates when it does not return a row. -/
inductive RegisterError where
  | valueError (msg : String)
  | attributeError (msg : String)
  deriving DecidableEq

/-- Line 129 / 152 of `app/models/user.py`. -/
def passwordLengthMsg : String := "Password must be at least 6 characters long"

/-- Line 135 of `app/models/user.py`. -/
def conflictMsg : String := "Username or email already exists"

/-- `User.register`:
1. `UserCreate.model_validate`; a `ValidationError` whose text mentions
   `password` is rewritten to the password-length message, any other one is
   re-raised as `ValueError(str(e))` (lines 150-153).
2. empty or short password raises the password-length `ValueError`
   (lines 128-129).
3. an existing row matching the email or the username raises the conflict
   `ValueError` (lines 131-135).
4. the success path then evaluates `first_name=user_create.first_name`
   (line 140) — but `UserCreate` declares no `first_name` field, so pydantic
   raises `AttributeError` before the row is ever constructed; `db.add` /
   `db.commit` are unreachable.
The directory is returned alongside the outcome; no path mutates it. -/
def register (db : List User) (user_data : RegisterInput) :
    Except RegisterError User × List User :=
  match UserCreate.model_validate user_data with
  | .error e =>
    if strContains e "password" then
      (.error (.valueError passwordLengthMsg), db)
    else
      (.error (.valueError e), db)
  | .ok user_create =>
    if user_create.password = "" ∨ user_create.password.length < 6 then
      (.error (.valueError passwordLengthMsg), db)
    else if db.any (fun u =>
        u.email == some user_create.email ||
        u.username == some user_create.username) then
      (.error (.valueError conflictMsg), db)
    else
      (.error (.attributeError "UserCreate object has no attribute first_name"),
        db)

/-! ## `User.authenticate` (`app/models/user.py` 155-173) -/

/-- The success payload: the `Token` schema of `app/schemas/user.py`. -/
structure TokenResponse where
  access_token : JWT
  token_type : String
  user : UserResponse
  deriving DecidableEq

/-- How an `authenticate` call terminates: `failure` is the returned `None`,
`error` a raised exception escaping the method. -/
inductive AuthOutcome where
  | failure
  | success (resp : TokenResponse)
  | error (msg : String)
  deriving DecidableEq

/-- The row filter of `authenticate`: `(username == v) | (email == v)`. -/
def authFilter (v : String) (u : User) : Bool :=
  u.username == some v || u.email == some v

/-- Replace the first element satisfying `p` by `f` of it. -/
def updateFirst (p : α → Bool) (f : α → α) : List α → List α
  | [] => []
  | x :: xs => if p x then f x :: xs else x :: updateFirst p f xs

/-- `User.authenticate`: look the row up by username-or-email; return `None`
when there is no row or the password does not verify; otherwise set
`last_login` (and, via the column `onupdate`, `updated_at`), commit, and
return the token response with `subject = user.id` (a NULL id would be
stringified, hence the `inr "None"` arm). -/
def authenticate (now : Nat) (db : List User)
    (username_or_email password : String) : AuthOutcome × List User :=
  match db.find? (authFilter username_or_email) with
  | none => (.failure, db)
  | some user =>
    if !user.verify_password password then (.failure, db)
    else
      let user' : User := { user with last_login := some now, updated_at := some now }
      let db' := updateFirst (authFilter username_or_email)
        (fun u => { u with last_login := some now, updated_at := some now }) db
      match UserResponse.model_validate user' with
      | .error m => (.error m, db')
      | .ok user_response =>
        let tok := create_access_token_for_username now
          (match user.id with
           | some uid => .inl uid
           | none => .inr "None") none
        (.success { access_token := tok, token_type := "bearer",
                    user := user_response }, db')

/-! ## Request-authentication gate (`app/auth/dependencies.py`) -/

/-- A raised `HTTPException` (status code, detail) or an unmapped error
escaping the dependency. -/
inductive DepError where
  | httpError (statusCode : Nat) (detail : String)
  | internalError (msg : String)
  deriving DecidableEq

/-- `credentials_exception` of `get_current_user` (lines 18-22). -/
def credentialsException : DepError :=
  .httpError 401 "Could not validate credentials"

/-- The inactive-account exception of `get_current_active_user`
(lines 44-47). -/
def inactiveException : DepError :=
  .httpError 400 "Inactive user"

/-- The `isinstance(identifier, uuid.UUID)` branch of `get_current_user`
(lines 28-31): id-lookup for a UUID subject, username-lookup otherwise —
with no fallback from one to the other. -/
def lookup_identifier (db : List User) (identifier : UUID ⊕ String) :
    Option User :=
  match identifier with
  | .inl u => db.find? (fun usr => usr.id == some u)
  | .inr s => db.find? (fun usr => usr.username == some s)

/-- `get_current_user` (`app/auth/dependencies.py` 13-36). -/
def get_current_user (now : Nat) (db : List User) (token : JWT) :
    Except DepError UserResponse :=
  match verify_token now token with
  | none => .error credentialsException
  | some identifier =>
    match lookup_identifier db identifier with
    | none => .error credentialsException
    | some user =>
      match UserResponse.model_validate user with
      | .ok resp => .ok resp
      | .error m => .error (.internalError m)

/-- `get_current_active_user` (`app/auth/dependencies.py` 39-48):
`if not current_user.is_active` raises the 400, so anything other than a
literal `True` flag (i.e. `False` or a NULL column) is inactive. -/
def get_current_active_user (now : Nat) (db : List User) (token : JWT) :
    Except DepError UserResponse :=
  match get_current_user now db token with
  | .error e => .error e
  | .ok current_user =>
    if current_user.is_active == some true then .ok current_user
    else .error inactiveException

/-! ## Concrete fixtures used by witnesses and counterexamples -/

/-- A persisted account row, password `secret1` hashed with salt `12345`. -/
def aliceRow : User :=
  { id := some ⟨"0df19f6161c948c59f3ba0cbd2103cbb".toList⟩
    username := some "alice"
    email := some "alice@example.com"
    first_name := none
    last_name := none
    password_hash := some (hash_password 12345 "secret1")
    is_active := some true
    is_verified := some false
    last_login := none
    created_at := some 1700000000
    updated_at := some 1700000000 }

/-- The UUID value whose canonical string equals `carolUsername`. -/
def aliceUUID : UUID := ⟨"123e4567e89b12d3a456426614174000".toList⟩

def carolId : UUID := ⟨"00000000000000000000000000000001".toList⟩

/-- A username that is syntactically a canonical UUID string — but is not
carol's id. -/
def carolUsername : String := "123e4567-e89b-12d3-a456-426614174000"

/-- A persisted, active account whose username is UUID-shaped. -/
def carolRow : User :=
  { id := some carolId
    username := some carolUsername
    email := some "carol@example.com"
    first_name := none
    last_name := none
    password_hash := some (hash_password 7 "pw12345")
    is_active := some true
    is_verified := some false
    last_login := none
    created_at := some 0
    updated_at := some 0 }

/-- The response view of `carolRow`. -/
def carolResp : UserResponse :=
  { id := carolId
    username := carolUsername
    email := "carol@example.com"
    first_name := none
    last_name := none
    is_active := some true
    is_verified := some false
    created_at := 0
    updated_at := some 0 }

/-- A token whose subject is carol's (UUID-shaped) username. -/
def carolToken : JWT :=
  create_access_token_for_username 0 (Sum.inr carolUsername) none

def dinaId : UUID := ⟨"abcdefabcdefabcdefabcdefabcdef12".toList⟩

/-- A persisted but deactivated account row. -/
def dinaRow : User :=
  { id := some dinaId
    username := some "dina"
    email := some "dina@example.com"
    first_name := none
    last_name := none
    password_hash := some (hash_password 99 "dinapass")
    is_active := some false
    is_verified := some false
    last_login := none
    created_at := some 0
    updated_at := some 0 }

/-- The response view of `dinaRow`. -/
def dinaResp : UserResponse :=
  { id := dinaId
    username := "dina"
    email := "dina@example.com"
    first_name := none
    last_name := none
    is_active := some false
    is_verified := some false
    created_at := 0
    updated_at := some 0 }

/-- A valid token naming dina by username. -/
def dinaToken : JWT :=
  create_access_token_for_username 0 (Sum.inr "dina") none

/-! ## Helper lemmas -/

/-- Decoding an encoded token with the same secret succeeds whenever the
expiry has not passed. -/
theorem jwt_decode_encode (c : JWTClaims) (secret : String) (t : Nat) :
    jwt_decode (jwt_encode c secret) secret t =
      if c.exp < t then none else some c := by
  simp [jwt_encode, jwt_decode]

theorem listReplaceAux_of_head_not_mem (c0 : Char) (ns : List Char)
    (fuel : Nat) (hay : List Char) (h : c0 ∉ hay) :
    listReplaceAux (c0 :: ns) fuel hay = hay := by
  induction fuel generalizing hay with
  | zero => cases hay <;> simp [listReplaceAux]
  | succ n ih =>
    cases hay with
    | nil => simp [listReplaceAux]
    | cons c rest =>
      rw [listReplaceAux]
      rw [if_neg, ih rest (fun hc => h (List.mem_cons_of_mem _ hc))]
      rintro ⟨-, hp⟩
      rcases List.isPrefixOf_iff_prefix.mp hp with ⟨ts, hts⟩
      rw [List.cons_append] at hts
      injection hts with h1 _
      exact h (h1 ▸ List.mem_cons_self _ _)

theorem listReplace_of_head_not_mem (c0 : Char) (ns hay : List Char)
    (h : c0 ∉ hay) : listReplace (c0 :: ns) hay = hay :=
  listReplaceAux_of_head_not_mem c0 ns hay.length hay h

theorem dropWhile_eq_self_of (p : Char → Bool) (l : List Char)
    (h : ∀ c ∈ l, p c = false) : l.dropWhile p = l := by
  cases l with
  | nil => rfl
  | cons a as => simp [List.dropWhile, h a (List.mem_cons_self _ _)]

theorem stripBraces_eq_self (l : List Char)
    (h : ∀ c ∈ l, isBraceChar c = false) : stripBraces l = l := by
  unfold stripBraces
  rw [dropWhile_eq_self_of _ _ h,
      dropWhile_eq_self_of _ _ (fun c hc => h c (List.mem_reverse.mp hc)),
      List.reverse_reverse]

theorem isBrace_false_of_lower_hex (c : Char) (h : isLowerHexChar c = true) :
    isBraceChar c = false := by
  unfold isBraceChar
  have h1 : (c == '\x7b') = false := by
    refine beq_eq_false_iff_ne.mpr (fun he => ?_)
    subst he; revert h; decide
  have h2 : (c == '\x7d') = false := by
    refine beq_eq_false_iff_ne.mpr (fun he => ?_)
    subst he; revert h; decide
  rw [h1, h2]; rfl

theorem filter_dash_of_lower_hex (l : List Char)
    (h : ∀ c ∈ l, isLowerHexChar c = true) :
    l.filter (fun c => c != '-') = l := by
  refine List.filter_eq_self.mpr (fun a ha => ?_)
  refine bne_iff_ne.mpr (fun he => ?_)
  have := h a ha
  subst he; revert this; decide

theorem hexToLower_eq_self (c : Char) (h : isLowerHexChar c = true) :
    hexToLower c = c := by
  unfold hexToLower
  rw [if_neg]
  unfold isLowerHexChar at h
  simp only [Bool.or_eq_true, Bool.and_eq_true, decide_eq_true_eq] at h
  omega

theorem uuidFormat_reassemble (hx : List Char) :
    hx.take 8 ++ ((hx.drop 8).take 4 ++ ((hx.drop 12).take 4 ++
      ((hx.drop 16).take 4 ++ hx.drop 20))) = hx := by
  have e1 : (hx.drop 16).take 4 ++ hx.drop 20 = hx.drop 16 := by
    have h := List.take_append_drop 4 (hx.drop 16)
    rwa [List.drop_drop, (by norm_num : 4 + 16 = 20)] at h
  have e2 : (hx.drop 12).take 4 ++ hx.drop 16 = hx.drop 12 := by
    have h := List.take_append_drop 4 (hx.drop 12)
    rwa [List.drop_drop, (by norm_num : 4 + 12 = 16)] at h
  have e3 : (hx.drop 8).take 4 ++ hx.drop 12 = hx.drop 8 := by
    have h := List.take_append_drop 4 (hx.drop 8)
    rwa [List.drop_drop, (by norm_num : 4 + 8 = 12)] at h
  rw [e1, e2, e3, List.take_append_drop]

theorem mem_uuidFormat (hx : List Char) (c : Char) (hc : c ∈ uuidFormat hx) :
    c ∈ hx ∨ c = '-' := by
  unfold uuidFormat at hc
  simp only [List.mem_append, List.mem_cons] at hc
  rcases hc with h | h | h | h | h | h | h | h | h
  · exact Or.inl (List.take_subset _ _ h)
  · exact Or.inr h
  · exact Or.inl (List.drop_subset _ _ (List.take_subset _ _ h))
  · exact Or.inr h
  · exact Or.inl (List.drop_subset _ _ (List.take_subset _ _ h))
  · exact Or.inr h
  · exact Or.inl (List.drop_subset _ _ (List.take_subset _ _ h))
  · exact Or.inr h
  · exact Or.inl (List.drop_subset _ _ h)

/-- Round-trip of the UUID model: parsing the canonical string form of a
valid UUID recovers the value, the way `uuid.UUID(str(u)) == u` holds in
Python. -/
theorem UUID.parse_toString (u : UUID) (hv : u.valid = true) :
    UUID.parse u.toString = some u := by
  have hva := hv
  unfold UUID.valid at hva
  rw [Bool.and_eq_true] at hva
  obtain ⟨hlenb, hallb⟩ := hva
  have hlen : u.hex.length = 32 := by simpa using hlenb
  have hhex : ∀ c ∈ u.hex, isLowerHexChar c = true := by
    simpa [List.all_eq_true] using hallb
  have hmem : ∀ c ∈ uuidFormat u.hex, isLowerHexChar c = true ∨ c = '-' := by
    intro c hc
    rcases mem_uuidFormat u.hex c hc with h | h
    · exact Or.inl (hhex c h)
    · exact Or.inr h
  unfold UUID.toString UUID.parse
  have htl : (String.mk (uuidFormat u.hex)).toList = uuidFormat u.hex := rfl
  rw [htl]
  have hurn : "urn:".toList = 'u' :: "rn:".toList := rfl
  have huuid : "uuid:".toList = 'u' :: "uid:".toList := rfl
  have hnu : 'u' ∉ uuidFormat u.hex := by
    intro hmu
    rcases hmem _ hmu with h | h
    · revert h; decide
    · revert h; decide
  rw [hurn, listReplace_of_head_not_mem _ _ _ hnu,
      huuid, listReplace_of_head_not_mem _ _ _ hnu]
  rw [stripBraces_eq_self _ (fun c hc => by
    rcases hmem c hc with h | h
    · exact isBrace_false_of_lower_hex c h
    · subst h; decide)]
  have hfilter : (uuidFormat u.hex).filter (fun c => c != '-') = u.hex := by
    unfold uuidFormat
    rw [List.filter_append, List.filter_cons, List.filter_append,
        List.filter_cons, List.filter_append, List.filter_cons,
        List.filter_append, List.filter_cons]
    norm_num
    rw [filter_dash_of_lower_hex _ (fun c hc => hhex c (List.take_subset _ _ hc)),
        filter_dash_of_lower_hex _ (fun c hc =>
          hhex c (List.drop_subset _ _ (List.take_subset _ _ hc))),
        filter_dash_of_lower_hex _ (fun c hc =>
          hhex c (List.drop_subset _ _ (List.take_subset _ _ hc))),
        filter_dash_of_lower_hex _ (fun c hc =>
          hhex c (List.drop_subset _ _ (List.take_subset _ _ hc))),
        filter_dash_of_lower_hex _ (fun c hc => hhex c (List.drop_subset _ _ hc))]
    exact uuidFormat_reassemble u.hex
  rw [hfilter]
  unfold uuidFromHexChars
  rw [if_pos]
  · have hmap : u.hex.map hexToLower = u.hex := by
      have := List.map_congr_left (f := hexToLower) (g := id)
        (fun c hc => hexToLower_eq_self c (hhex c hc))
      simpa using this
    rw [hmap]
  · rw [Bool.and_eq_true]
    constructor
    · rw [hlen]; rfl
    · rw [List.all_eq_true]
      intro c hc
      unfold isHexDigitChar
      rw [hhex c hc]
      rfl

/-- The canonical string of a UUID is never the empty string (it always
contains hyphens). -/
theorem UUID.toString_ne_empty (u : UUID) : u.toString ≠ "" := by
  unfold UUID.toString
  intro h
  have : uuidFormat u.hex = [] := by
    have := congrArg String.toList h
    simpa using this
  unfold uuidFormat at this
  simp [List.append_eq_nil] at this

/-! ## Claim theorems -/

/-- C1.  The claim says every valid registration input yields an Account
with a verified, non-plaintext `password_hash`.  The code cannot: after
validation and the uniqueness check pass, `register` evaluates
`user_create.first_name` (`app/models/user.py` line 140), but the
`UserCreate` schema declares only `username`, `email`, `password`, so
pydantic raises `AttributeError` and no account is ever returned.  Here the
scenario input of spec section 8 — a well-formed username/email, password
of length 6 or more, empty directory — produces that error. -/
theorem register_valid_input_raises_attribute_error :
    register []
      { username := some "alice", email := some "alice@example.com",
        password := some "secret1" } =
      (.error (.attributeError "UserCreate object has no attribute first_name"),
        []) := rfl

/-- C3.  The Credential Hasher's `verify` returns the boolean `false` —
as a value of the total function, never an error — whenever the plaintext
is empty, the stored hash is empty, the stored hash is malformed, or the
stored hash does not match the plaintext. -/
theorem pwd_verify_false_on_failure (plain stored : String)
    (h : plain = "" ∨ stored = "" ∨ bcryptParse stored = none ∨
      (∀ saltDigits payload, bcryptParse stored = some (saltDigits, payload) →
        payload ≠ plain)) :
    pwd_verify plain stored = false := by
  unfold pwd_verify
  rcases h with h | h | h | h
  · rw [if_pos (Or.inl h)]
  · rw [if_pos (Or.inr h)]
  · by_cases he : plain = "" ∨ stored = ""
    · rw [if_pos he]
    · rw [if_neg he, h]
  · by_cases he : plain = "" ∨ stored = ""
    · rw [if_pos he]
    · rw [if_neg he]
      cases hp : bcryptParse stored with
      | none => rfl
      | some pr =>
        obtain ⟨saltDigits, payload⟩ := pr
        simp only []
        exact beq_eq_false_iff_ne.mpr (h saltDigits payload hp)

/-- Witness for C3 at a malformed stored hash. -/
theorem pwd_verify_false_on_failure_witness :
    bcryptParse "not-a-hash" = none ∧ pwd_verify "pw" "not-a-hash" = false :=
  ⟨by decide,
    pwd_verify_false_on_failure "pw" "not-a-hash"
      (Or.inr (Or.inr (Or.inl (by decide))))⟩

/-- C5.  Anti-enumeration: `authenticate` returns the identical failure
signal — the Python `None`, here `AuthOutcome.failure`, with the directory
unchanged — both when no account matches the identifier and when an
account matches but the password does not verify. -/
theorem authenticate_anti_enumeration (now : Nat) (db : List User)
    (ident1 pw1 ident2 pw2 : String) (a : User)
    (h1 : db.find? (authFilter ident1) = none)
    (h2 : db.find? (authFilter ident2) = some a)
    (h3 : a.verify_password pw2 = false) :
    authenticate now db ident1 pw1 = (.failure, db) ∧
    authenticate now db ident2 pw2 = (.failure, db) ∧
    authenticate now db ident1 pw1 = authenticate now db ident2 pw2 := by
  have e1 : authenticate now db ident1 pw1 = (.failure, db) := by
    unfold authenticate
    rw [h1]
  have e2 : authenticate now db ident2 pw2 = (.failure, db) := by
    unfold authenticate
    rw [h2]
    simp [h3]
  exact ⟨e1, e2, e1.trans e2.symm⟩

/-- Witness for C5: an unknown identifier and a wrong password against
`aliceRow` yield the same `failure` outcome. -/
theorem authenticate_anti_enumeration_witness :
    authenticate 0 [aliceRow] "nonexistent" "x" = (.failure, [aliceRow]) ∧
    authenticate 0 [aliceRow] "alice" "wrongpassword" = (.failure, [aliceRow]) ∧
    authenticate 0 [aliceRow] "nonexistent" "x" =
      authenticate 0 [aliceRow] "alice" "wrongpassword" :=
  authenticate_anti_enumeration 0 [aliceRow] "nonexistent" "x" "alice"
    "wrongpassword" aliceRow (by decide) (by decide) (by decide)

/-- C6.  Token verification never lets an exception escape: it returns the
`none` sentinel — never a subject — for an undecodable blob, for a
signature that does not match the secret, for a passed expiry, and for a
`sub` claim that is present but the empty string. -/
theorem verify_token_failure_is_data (now : Nat) :
    (∀ raw, verify_token now (.garbage raw) = none) ∧
    (∀ claims sig, sig ≠ macSign SECRET_KEY (claimsEncode claims) →
      verify_token now (.token claims sig) = none) ∧
    (∀ claims sig, claims.exp < now →
      verify_token now (.token claims sig) = none) ∧
    (∀ claims sig, claims.sub = some "" →
      verify_token now (.token claims sig) = none) := by
  refine ⟨fun raw => rfl, ?_, ?_, ?_⟩
  · intro claims sig h
    simp [verify_token, jwt_decode, h]
  · intro claims sig h
    simp [verify_token, jwt_decode, h]
  · intro claims sig h
    by_cases hs : sig = macSign SECRET_KEY (claimsEncode claims)
    · by_cases he : claims.exp < now
      · simp [verify_token, jwt_decode, hs, he]
      · simp [verify_token, jwt_decode, hs, he, h]
    · simp [verify_token, jwt_decode, hs]

/-- Witness for C6: a garbage blob, a forged signature, an expired token,
and an empty `sub` all verify to `none`. -/
theorem verify_token_failure_is_data_witness :
    verify_token 3 (.garbage "junk") = none ∧
    verify_token 3 (.token ⟨some "alice", 9999⟩ 0) = none ∧
    verify_token 9
      (.token ⟨some "alice", 5⟩
        (macSign SECRET_KEY (claimsEncode ⟨some "alice", 5⟩))) = none ∧
    verify_token 3 (.token ⟨some "", 9999⟩ 0) = none :=
  ⟨(verify_token_failure_is_data 3).1 "junk",
   (verify_token_failure_is_data 3).2.1 ⟨some "alice", 9999⟩ 0 (by decide),
   (verify_token_failure_is_data 9).2.2.1 ⟨some "alice", 5⟩ _ (by decide),
   (verify_token_failure_is_data 3).2.2.2 ⟨some "", 9999⟩ 0 rfl⟩

/-- C10.  The `User` constructor discards a `password_hash` keyword: the
constructed row is identical with or without it, and when no `password`
keyword is given the stored `password_hash` is left unset — so a caller
cannot inject an arbitrary hash through that keyword. -/
theorem init_discards_password_hash_kwarg (salt : Nat) (kw : UserKwargs)
    (ph : Option String) :
    User.init salt { kw with password_hash := ph } = User.init salt kw ∧
    (kw.password = none → (User.init salt kw).password_hash = none) := by
  constructor
  · cases kw
    rfl
  · intro h
    simp [User.init, h]

/-- Witness for C10: injecting `password_hash := some "evil"` changes
nothing, and without a `password` keyword the hash stays unset. -/
theorem init_discards_password_hash_kwarg_witness :
    User.init 0 { username := some "eve", password_hash := some "evil" } =
      User.init 0 { username := some "eve" } ∧
    (User.init 0 { username := some "eve" }).password_hash = none :=
  ⟨(init_discards_password_hash_kwarg 0 { username := some "eve" }
      (some "evil")).1,
   (init_discards_password_hash_kwarg 0 { username := some "eve" }
      (some "evil")).2 rfl⟩

/-- C7 counterexample.  The claim quantifies over *every* registration
input reusing an existing username or email; but the password-length check
(line 128) runs before the uniqueness check (line 131), so an input that
reuses `aliceRow`'s username while carrying a 3-character password fails
with the password-length `ValueError`, not the conflict error. -/
theorem register_conflict_short_password_counterexample :
    register [aliceRow]
      { username := some "alice", email := some "other@example.com",
        password := some "abc" } =
      (.error (.valueError passwordLengthMsg), [aliceRow]) ∧
    aliceRow.username = some "alice" ∧
    passwordLengthMsg ≠ conflictMsg :=
  ⟨rfl, rfl, by decide⟩

/-- C7 (amended).  For every account `A` in the directory and every
registration input that passes schema validation and the password-length
check while reusing `A`'s username or `A`'s email (or both), `register`
fails with the conflict `ValueError` ("Username or email already exists")
regardless of which field collided, and the directory is unchanged. -/
theorem register_conflict_on_reuse (db : List User) (input : RegisterInput)
    (uc : UserCreate) (A : User)
    (hval : UserCreate.model_validate input = .ok uc)
    (hpw : ¬(uc.password = "" ∨ uc.password.length < 6))
    (hmem : A ∈ db)
    (hcol : A.username = some uc.username ∨ A.email = some uc.email) :
    register db input = (.error (.valueError conflictMsg), db) := by
  simp only [register, hval]
  rw [if_neg hpw, if_pos]
  rw [List.any_eq_true]
  refine ⟨A, hmem, ?_⟩
  rcases hcol with h | h
  · simp [h]
  · simp [h]

/-- Witness for C7 (amended): reusing alice's username with a fresh email
and a long-enough password hits the conflict error. -/
theorem register_conflict_on_reuse_witness :
    register [aliceRow]
      { username := some "alice", email := some "new@example.com",
        password := some "longpass" } =
      (.error (.valueError conflictMsg), [aliceRow]) :=
  register_conflict_on_reuse [aliceRow]
    { username := some "alice", email := some "new@example.com",
      password := some "longpass" }
    ⟨"alice", "new@example.com", "longpass"⟩ aliceRow
    rfl (by decide) (by decide) (Or.inl rfl)

/-- C8 counterexample.  The claim quantifies over *every* input with a
password shorter than 6 characters; but when the input also fails schema
validation with a message not mentioning `password` — here a malformed
email — `register` reports that schema error verbatim, which says nothing
about the minimum password length. -/
theorem register_short_password_bad_email_counterexample :
    register []
      { username := some "bob", email := some "notanemail",
        password := some "abc" } =
      (.error (.valueError "email: value is not a valid email address"),
        []) ∧
    "abc".length < 6 ∧
    "email: value is not a valid email address" ≠ passwordLengthMsg ∧
    strContains "email: value is not a valid email address" "length" = false :=
  ⟨rfl, by decide, by decide, by decide⟩

/-- C8 (amended).  For every registration input that passes schema
validation and whose password is shorter than 6 characters, `register`
fails with the `ValueError` "Password must be at least 6 characters long"
— a message that names the minimum length and is distinct from the
conflict message — and the directory is unchanged.  (An input that already
fails schema validation reports the schema error instead, unless that
error text itself mentions `password`, in which case the same
password-length message is raised.) -/
theorem register_short_password_message (db : List User)
    (input : RegisterInput) (uc : UserCreate)
    (hval : UserCreate.model_validate input = .ok uc)
    (hshort : uc.password.length < 6) :
    register db input = (.error (.valueError passwordLengthMsg), db) ∧
    passwordLengthMsg ≠ conflictMsg ∧
    strContains passwordLengthMsg "at least 6 characters" = true := by
  refine ⟨?_, by decide, by decide⟩
  simp only [register, hval]
  rw [if_pos (Or.inr hshort)]

/-- Witness for C8 (amended) on a schema-valid input with password `abc`. -/
theorem register_short_password_message_witness :
    register [aliceRow]
      { username := some "bob", email := some "bob@example.com",
        password := some "abc" } =
      (.error (.valueError passwordLengthMsg), [aliceRow]) ∧
    passwordLengthMsg ≠ conflictMsg ∧
    strContains passwordLengthMsg "at least 6 characters" = true :=
  register_short_password_message [aliceRow]
    { username := some "bob", email := some "bob@example.com",
      password := some "abc" }
    ⟨"bob", "bob@example.com", "abc"⟩ rfl (by decide)

/-- C2 counterexample.  The claim quantifies over *every* subject, but the
empty-string subject does not round-trip: issuing with subject `""` and
verifying before expiry yields the invalid sentinel `none` (the `if not
sub` guard), not the raw string back. -/
theorem token_roundtrip_empty_subject_counterexample :
    verify_token 0 (create_access_token_for_username 0 (Sum.inr "") none) =
      none ∧
    (0 : Nat) < 0 + ACCESS_TOKEN_EXPIRE_MINUTES * 60 ∧
    (none : Option (UUID ⊕ String)) ≠ some (Sum.inr "") :=
  ⟨rfl, by decide, by decide⟩

/-- C2 (amended).  Round-trip for every *non-empty* subject: before expiry,
`verify(issue(subject))` returns the subject — as a UUID value when it was
issued as a UUID, as a UUID value again when it was issued as a string that
parses as a UUID, and as the raw string otherwise; after expiry it returns
the invalid sentinel.  (The empty-string subject is the one exception: it
verifies to the invalid sentinel even before expiry.) -/
theorem token_roundtrip_nonempty_subject (now t : Nat) (d : Option Nat) :
    (∀ u : UUID, u.valid = true →
      t ≤ now + d.getD (ACCESS_TOKEN_EXPIRE_MINUTES * 60) →
      verify_token t (create_access_token_for_username now (.inl u) d) =
        some (.inl u)) ∧
    (∀ s : String, s ≠ "" →
      t ≤ now + d.getD (ACCESS_TOKEN_EXPIRE_MINUTES * 60) →
      verify_token t (create_access_token_for_username now (.inr s) d) =
        some ((UUID.parse s).elim (Sum.inr s) Sum.inl)) ∧
    (∀ ident, now + d.getD (ACCESS_TOKEN_EXPIRE_MINUTES * 60) < t →
      verify_token t (create_access_token_for_username now ident d) = none) := by
  refine ⟨?_, ?_, ?_⟩
  · intro u hu ht
    simp [create_access_token_for_username, verify_token, jwt_decode_encode,
      subjectToSub, UUID.toString_ne_empty u, UUID.parse_toString u hu,
      Nat.not_lt.mpr ht]
  · intro s hs ht
    simp only [create_access_token_for_username, verify_token,
      jwt_decode_encode, subjectToSub]
    rw [if_neg (Nat.not_lt.mpr ht)]
    simp only [if_neg hs]
    cases hp : UUID.parse s <;> simp [hp]
  · intro ident hlt
    simp [create_access_token_for_username, verify_token, jwt_decode_encode,
      hlt]

/-- Witness for C2 (amended): a UUID subject, a plain-string subject, and
an expired verification. -/
theorem token_roundtrip_nonempty_subject_witness :
    verify_token 100 (create_access_token_for_username 0 (.inl aliceUUID) none) =
      some (.inl aliceUUID) ∧
    verify_token 100 (create_access_token_for_username 0 (.inr "alice") none) =
      some ((UUID.parse "alice").elim (Sum.inr "alice") Sum.inl) ∧
    verify_token 2000 (create_access_token_for_username 0 (.inr "alice") none) =
      none :=
  ⟨(token_roundtrip_nonempty_subject 0 100 none).1 aliceUUID (by decide)
      (by decide),
   (token_roundtrip_nonempty_subject 0 100 none).2.1 "alice" (by decide)
      (by decide),
   (token_roundtrip_nonempty_subject 0 2000 none).2.2 (Sum.inr "alice")
      (by decide)⟩

set_option maxRecDepth 8192 in
/-- C4 counterexample.  `carolRow`'s username is syntactically a canonical
UUID string; a token carrying that username as subject is looked up by id
only (no fallback to username-lookup), so `get_current_user` raises the
401 even though the username-lookup would have found and validated the
account — contradicting the claimed id-then-username fallback. -/
theorem resolve_identity_uuid_shaped_username_counterexample :
    UUID.parse carolUsername = some aliceUUID ∧
    carolRow.id ≠ some aliceUUID ∧
    get_current_user 0 [carolRow] carolToken = .error credentialsException ∧
    List.find? (fun usr => usr.username == some carolUsername) [carolRow] =
      some carolRow ∧
    UserResponse.model_validate carolRow = .ok carolResp :=
  ⟨rfl, by decide, rfl, rfl, rfl⟩

/-- C4 (amended).  For every verified token subject, resolve-identity
branches with no fallback: a subject that parses as a UUID is resolved by
id-lookup alone (so a UUID-shaped username can never be found this way),
and a subject that does not parse as a UUID is resolved by username-lookup
alone. -/
theorem resolve_identity_no_fallback (now t : Nat) (db : List User)
    (s : String) (hs : s ≠ "")
    (ht : t ≤ now + ACCESS_TOKEN_EXPIRE_MINUTES * 60) :
    (∀ u : UUID, UUID.parse s = some u →
      get_current_user t db
          (create_access_token_for_username now (.inr s) none) =
        (match db.find? (fun usr => usr.id == some u) with
         | none => .error credentialsException
         | some user =>
           match UserResponse.model_validate user with
           | .ok r => .ok r
           | .error m => .error (.internalError m))) ∧
    (UUID.parse s = none →
      get_current_user t db
          (create_access_token_for_username now (.inr s) none) =
        (match db.find? (fun usr => usr.username == some s) with
         | none => .error credentialsException
         | some user =>
           match UserResponse.model_validate user with
           | .ok r => .ok r
           | .error m => .error (.internalError m))) := by
  have hexp : ¬ now + ACCESS_TOKEN_EXPIRE_MINUTES * 60 < t :=
    Nat.not_lt.mpr ht
  constructor
  · intro u hpu
    have hv : verify_token t
        (create_access_token_for_username now (.inr s) none) =
        some (.inl u) := by
      simp [create_access_token_for_username, verify_token,
        jwt_decode_encode, subjectToSub, hs, hexp, hpu]
    simp [get_current_user, hv, lookup_identifier]
  · intro hpu
    have hv : verify_token t
        (create_access_token_for_username now (.inr s) none) =
        some (.inr s) := by
      simp [create_access_token_for_username, verify_token,
        jwt_decode_encode, subjectToSub, hs, hexp, hpu]
    simp [get_current_user, hv, lookup_identifier]

/-- Witness for C4 (amended) at carol's UUID-shaped username. -/
theorem resolve_identity_no_fallback_witness :
    get_current_user 0 [carolRow]
        (create_access_token_for_username 0 (.inr carolUsername) none) =
      (match List.find? (fun usr => usr.id == some aliceUUID) [carolRow] with
       | none => .error credentialsException
       | some user =>
         match UserResponse.model_validate user with
         | .ok r => .ok r
         | .error m => .error (.internalError m)) :=
  (resolve_identity_no_fallback 0 0 [carolRow] carolUsername (by decide)
    (by decide)).1 aliceUUID rfl

/-- C9.  A valid token resolving to an existing account whose `is_active`
flag is false produces the distinct inactive-account signal (HTTP 400
"Inactive user"), different from the uniform not-authenticated signal
(HTTP 401 "Could not validate credentials") that an invalid token or an
unknown account produces. -/
theorem inactive_account_distinct_signal (now : Nat) (db : List User)
    (token : JWT) (identifier : UUID ⊕ String) (user : User)
    (resp : UserResponse)
    (h1 : verify_token now token = some identifier)
    (h2 : lookup_identifier db identifier = some user)
    (h3 : UserResponse.model_validate user = .ok resp)
    (h4 : resp.is_active = some false) :
    get_current_active_user now db token = .error inactiveException ∧
    inactiveException ≠ credentialsException ∧
    (∀ tok2, verify_token now tok2 = none →
      get_current_active_user now db tok2 = .error credentialsException) ∧
    (∀ tok3 id3, verify_token now tok3 = some id3 →
      lookup_identifier db id3 = none →
      get_current_active_user now db tok3 = .error credentialsException) := by
  refine ⟨?_, by decide, ?_, ?_⟩
  · simp [get_current_active_user, get_current_user, h1, h2, h3, h4]
  · intro tok2 hv
    simp [get_current_active_user, get_current_user, hv]
  · intro tok3 id3 hv hl
    simp [get_current_active_user, get_current_user, hv, hl]

/-- Witness for C9 at the deactivated account `dinaRow`. -/
theorem inactive_account_distinct_signal_witness :
    get_current_active_user 0 [dinaRow] dinaToken = .error inactiveException ∧
    inactiveException ≠ credentialsException :=
  ⟨(inactive_account_distinct_signal 0 [dinaRow] dinaToken (Sum.inr "dina")
      dinaRow dinaResp rfl rfl rfl rfl).1,
   (inactive_account_distinct_signal 0 [dinaRow] dinaToken (Sum.inr "dina")
      dinaRow dinaResp rfl rfl rfl rfl).2.1⟩

end AuthCore
